import Mathlib

/-!
Shallow embedding of the test-harness process lifecycle of
`tests/test_integration_server.py` and of the exploratory script
`scripts/dev/query_remote.py`.

Time is modelled in integer milliseconds (Python's `time.time()` floats are
abstracted to an integer clock; only comparisons against the deadline matter).
External calls (`requests.get`, `os.killpg`, `proc.wait`, the MCP client
methods) are modelled by environments giving, for each call, its outcome:
a value returned or a Python exception raised.
-/

namespace McpHarness

/-- An HTTP response as observed by the polling loop: only `status_code`
is inspected by the source. -/
structure Response where
  status_code : Int
deriving DecidableEq, Repr

/-- Python exception values that the harness code raises or observes. -/
inductive PyExc where
  | requestException (msg : String)
  | timeoutExpired (msg : String)
  | processLookupError (msg : String)
  | timeoutError (msg : String)
  | assertionError (msg : String)
  | unboundLocalError (name : String)
  | other (msg : String)
deriving DecidableEq, Repr

/-- Python truthiness of an exception instance (`if last_exc:`): exception
instances define neither `__bool__` nor `__len__`, so they are always truthy. -/
def pyTruthy (_ : PyExc) : Bool := true

/-- Environment of one run of `_wait_for_server_startup`: for attempt number
`i`, `(env i).1` is the outcome of `requests.get(url, timeout=1)` and
`(env i).2` is the wall time in ms that the attempt consumed. -/
def PollEnv := Nat → Except PyExc Response × Nat

/-- Outcome of `_wait_for_server_startup`, with the distinct exits of the
source kept distinct: `return response` (line 27), `raise last_exc` (line 32),
`raise TimeoutError(...)` (line 34), and the `UnboundLocalError` that reading
a never-assigned `last_exc` at line 31 raises. -/
inductive WaitResult where
  | ok (r : Response)
  | raisedLast (e : PyExc)
  | raisedTimeout (msg : String)
  | unboundLocal (name : String)
deriving DecidableEq, Repr

/-- Milliseconds slept by `time.sleep(0.1)` at the end of each iteration. -/
def sleepMs : Nat := 100

/-- Message of the generic `TimeoutError` at line 34 of the source. -/
def genericTimeoutMsg (url : String) (timeoutS : Int) : String :=
  "Server at " ++ url ++ " did not respond in " ++ toString timeoutS ++ " seconds"

/-- The code after the `while` loop of `_wait_for_server_startup` (source
lines 31-34): `if last_exc: raise last_exc` then
`raise TimeoutError(f"Server at {url} did not respond in {timeout} seconds")`.
Reading `last_exc` when it was never assigned raises `UnboundLocalError`. -/
def afterLoop (url : String) (timeoutS : Int) (lastExc : Option PyExc) : WaitResult :=
  match lastExc with
  | some e => if pyTruthy e then .raisedLast e else .raisedTimeout (genericTimeoutMsg url timeoutS)
  | none => .unboundLocal "last_exc"

/-- The `while time.time() < deadline` loop of `_wait_for_server_startup`,
followed by the post-loop code (`afterLoop`). `now` is the current clock,
`lastExc` the current value of `last_exc` (`none` = never assigned), `i` the
attempt counter. -/
def waitLoop (env : PollEnv) (url : String) (timeoutS : Int) (deadline : Int)
    (now : Int) (lastExc : Option PyExc) (i : Nat) : WaitResult :=
  if _h : now < deadline then
    match (env i).1 with
    | .ok resp =>
      if 200 ≤ resp.status_code ∧ resp.status_code < 400 then
        .ok resp
      else
        waitLoop env url timeoutS deadline (now + (env i).2 + sleepMs) lastExc (i + 1)
    | .error e =>
      waitLoop env url timeoutS deadline (now + (env i).2 + sleepMs) (some e) (i + 1)
  else
    afterLoop url timeoutS lastExc
termination_by (deadline - now).toNat
decreasing_by
  all_goals simp only [sleepMs]; omega

/-- Embedding of `_wait_for_server_startup(url, timeout)`: `startMs` is the
value of `time.time()` on entry, `timeoutS` the `timeout` argument in seconds
(an `int` in the source, default 10), so the deadline is `startMs + 1000 * timeoutS`. -/
def wait_for_server_startup (env : PollEnv) (url : String) (startMs : Int)
    (timeoutS : Int) : WaitResult :=
  waitLoop env url timeoutS (startMs + 1000 * timeoutS) startMs none 0

/-- Whether one `requests.get` outcome is a response taken as success by the
loop: a returned response whose status code is in 200..399. -/
def attemptSuccess (o : Except PyExc Response) : Bool :=
  match o with
  | .ok r => decide (200 ≤ r.status_code ∧ r.status_code < 400)
  | .error _ => false

/-- Whether an outcome is a raised exception. -/
def isErrB (o : Except PyExc Response) : Bool :=
  match o with
  | .ok _ => false
  | .error _ => true

/-- Total wall time in ms consumed by attempts `i, i+1, ..., i+k-1`
(each attempt's request time plus the 100 ms sleep). -/
def elapsedRun (env : PollEnv) (i : Nat) : Nat → Nat
  | 0 => 0
  | k + 1 => (env i).2 + sleepMs + elapsedRun env (i + 1) k

/-- A returned value, if any, has a success-range status. -/
def resultSound : WaitResult → Bool
  | .ok r => decide (200 ≤ r.status_code ∧ r.status_code < 400)
  | _ => true

/-- Fuel-indexed variant of `waitLoop`, used to state that the loop
terminates: `none` means the fuel ran out with the loop guard still true. -/
def waitLoopFuel (env : PollEnv) (url : String) (timeoutS : Int) (deadline : Int) :
    Nat → Int → Option PyExc → Nat → Option WaitResult
  | fuel, now, lastExc, i =>
    if now < deadline then
      match fuel with
      | 0 => none
      | fuel' + 1 =>
        match (env i).1 with
        | .ok resp =>
          if 200 ≤ resp.status_code ∧ resp.status_code < 400 then
            some (.ok resp)
          else
            waitLoopFuel env url timeoutS deadline fuel' (now + (env i).2 + sleepMs) lastExc (i + 1)
        | .error e =>
          waitLoopFuel env url timeoutS deadline fuel' (now + (env i).2 + sleepMs) (some e) (i + 1)
    else
      some (afterLoop url timeoutS lastExc)

section WaitLoopLemmas

variable (env : PollEnv) (url : String) (timeoutS deadline : Int)

/-- Unfolding lemma: one iteration whose attempt returns a response. -/
theorem waitLoop_step_ok (now : Int) (lastExc : Option PyExc) (i : Nat)
    {resp : Response} (henv : (env i).1 = Except.ok resp) (hlt : now < deadline) :
    waitLoop env url timeoutS deadline now lastExc i
      = if 200 ≤ resp.status_code ∧ resp.status_code < 400 then .ok resp
        else waitLoop env url timeoutS deadline (now + (env i).2 + sleepMs) lastExc (i + 1) := by
  rw [waitLoop, dif_pos hlt, henv]

/-- Unfolding lemma: one iteration whose attempt raises. -/
theorem waitLoop_step_err (now : Int) (lastExc : Option PyExc) (i : Nat)
    {e : PyExc} (henv : (env i).1 = Except.error e) (hlt : now < deadline) :
    waitLoop env url timeoutS deadline now lastExc i
      = waitLoop env url timeoutS deadline (now + (env i).2 + sleepMs) (some e) (i + 1) := by
  rw [waitLoop, dif_pos hlt, henv]

/-- Unfolding lemma: the deadline has passed, the post-loop code runs. -/
theorem waitLoop_exit (now : Int) (lastExc : Option PyExc) (i : Nat)
    (hge : ¬ now < deadline) :
    waitLoop env url timeoutS deadline now lastExc i = afterLoop url timeoutS lastExc := by
  rw [waitLoop, dif_neg hge]

/-- The generic `TimeoutError` exit of the loop is unreachable: an assigned
`last_exc` is always truthy. -/
theorem waitLoop_ne_raisedTimeout :
    ∀ (b : Nat) (now : Int) (lastExc : Option PyExc) (i : Nat) (msg : String),
      (deadline - now).toNat ≤ b →
      waitLoop env url timeoutS deadline now lastExc i ≠ .raisedTimeout msg := by
  intro b
  induction b with
  | zero =>
    intro now lastExc i msg hb
    rw [waitLoop]
    split
    · omega
    · cases lastExc <;> simp [afterLoop, pyTruthy]
  | succ b ih =>
    intro now lastExc i msg hb
    rw [waitLoop]
    split
    · split
      · split
        · simp
        · exact ih _ _ _ _ (by simp only [sleepMs]; omega)
      · exact ih _ _ _ _ (by simp only [sleepMs]; omega)
    · cases lastExc <;> simp [afterLoop, pyTruthy]

/-- If the loop returns a response, its status code is in 200..399. -/
theorem waitLoop_sound :
    ∀ (b : Nat) (now : Int) (lastExc : Option PyExc) (i : Nat) (r : Response),
      (deadline - now).toNat ≤ b →
      waitLoop env url timeoutS deadline now lastExc i = .ok r →
      200 ≤ r.status_code ∧ r.status_code < 400 := by
  intro b
  induction b with
  | zero =>
    intro now lastExc i r hb heq
    rw [waitLoop] at heq
    split at heq
    · omega
    · cases lastExc <;> simp [afterLoop, pyTruthy] at heq
  | succ b ih =>
    intro now lastExc i r hb heq
    rw [waitLoop] at heq
    split at heq
    · split at heq
      · split at heq
        · rename_i hin
          injection heq with h
          subst h
          exact hin
        · exact ih _ _ _ _ (by simp only [sleepMs]; omega) heq
      · exact ih _ _ _ _ (by simp only [sleepMs]; omega) heq
    · cases lastExc <;> simp [afterLoop, pyTruthy] at heq

/-- If the loop re-raises `last_exc`, that exception came from its initial
value or from some attempt's raised exception. -/
theorem waitLoop_raisedLast_src :
    ∀ (b : Nat) (now : Int) (lastExc : Option PyExc) (i : Nat) (e : PyExc),
      (deadline - now).toNat ≤ b →
      waitLoop env url timeoutS deadline now lastExc i = .raisedLast e →
      lastExc = some e ∨ ∃ j, i ≤ j ∧ (env j).1 = .error e := by
  intro b
  induction b with
  | zero =>
    intro now lastExc i e hb heq
    rw [waitLoop] at heq
    split at heq
    · omega
    · cases lastExc with
      | some e' => simp [afterLoop, pyTruthy] at heq; simp [heq]
      | none => simp [afterLoop] at heq
  | succ b ih =>
    intro now lastExc i e hb heq
    rw [waitLoop] at heq
    split at heq
    · split at heq
      · split at heq
        · cases heq
        · rcases ih _ _ _ _ (by simp only [sleepMs]; omega) heq with h | ⟨j, hj, hje⟩
          · exact Or.inl h
          · exact Or.inr ⟨j, by omega, hje⟩
      · rename_i e' henv
        rcases ih _ _ _ _ (by simp only [sleepMs]; omega) heq with h | ⟨j, hj, hje⟩
        · injection h with h'
          subst h'
          exact Or.inr ⟨i, le_refl _, henv⟩
        · exact Or.inr ⟨j, by omega, hje⟩
    · cases lastExc with
      | some e' => simp [afterLoop, pyTruthy] at heq; simp [heq]
      | none => simp [afterLoop] at heq

/-- If no attempt ever raises, `last_exc` is never assigned: the loop either
returns a success-status response or ends by reading the unassigned
`last_exc`, raising `UnboundLocalError`. -/
theorem waitLoop_allOk (hok : ∀ j, isErrB ((env j).1) = false) :
    ∀ (b : Nat) (now : Int) (i : Nat),
      (deadline - now).toNat ≤ b →
      (∃ r, waitLoop env url timeoutS deadline now none i = .ok r)
        ∨ waitLoop env url timeoutS deadline now none i = .unboundLocal "last_exc" := by
  intro b
  induction b with
  | zero =>
    intro now i hb
    rw [waitLoop]
    split
    · omega
    · exact Or.inr rfl
  | succ b ih =>
    intro now i hb
    rw [waitLoop]
    split
    · split
      · split
        · exact Or.inl ⟨_, rfl⟩
        · exact ih _ _ (by simp only [sleepMs]; omega)
      · rename_i e henv
        have := hok i
        rw [henv] at this
        simp [isErrB] at this
    · exact Or.inr rfl

/-- If every attempt the loop can reach before the deadline returns a
non-success response (no raise, no success), the loop neither returns nor
assigns `last_exc`: it falls through to the post-loop code with `last_exc`
unchanged. The hypothesis quantifies only over attempts whose start time
`now + elapsedRun env i k` is before the deadline — exactly the attempts the
loop guard lets run. -/
theorem waitLoop_no_event_afterLoop :
    ∀ (b : Nat) (now : Int) (lastExc : Option PyExc) (i : Nat),
      (deadline - now).toNat ≤ b →
      (∀ k, now + (elapsedRun env i k : Int) < deadline →
        attemptSuccess ((env (i + k)).1) = false ∧ isErrB ((env (i + k)).1) = false) →
      waitLoop env url timeoutS deadline now lastExc i = afterLoop url timeoutS lastExc := by
  intro b
  induction b with
  | zero =>
    intro now lastExc i hb hquiet
    exact waitLoop_exit env url timeoutS deadline now lastExc i (by omega)
  | succ b ih =>
    intro now lastExc i hb hquiet
    by_cases hlt : now < deadline
    · have h0 := hquiet 0 (by simpa [elapsedRun] using hlt)
      rw [Nat.add_zero] at h0
      cases henv : (env i).1 with
      | error e =>
        rw [henv] at h0
        simp [isErrB] at h0
      | ok resp =>
        have hns : ¬(200 ≤ resp.status_code ∧ resp.status_code < 400) := by
          have := h0.1
          rw [henv] at this
          simpa [attemptSuccess] using this
        rw [waitLoop_step_ok env url timeoutS deadline now lastExc i henv hlt, if_neg hns]
        refine ih (now + (env i).2 + sleepMs) lastExc (i + 1)
          (by simp only [sleepMs] at hb ⊢; omega) ?_
        intro k hk
        have harith : i + (k + 1) = i + 1 + k := by omega
        have hk' : now + (elapsedRun env i (k + 1) : Int) < deadline := by
          simp only [elapsedRun]
          push_cast at hk ⊢
          omega
        have := hquiet (k + 1) hk'
        rwa [harith] at this
    · exact waitLoop_exit env url timeoutS deadline now lastExc i hlt

/-- If attempt `i + k0` starts before the deadline and raises `e`, no
reachable attempt is a success, and no reachable attempt after `i + k0`
raises — i.e. `e` is the last exception the loop catches — then the loop
re-raises exactly `e`, whatever `last_exc` held before and whatever mixture
of raises and non-success responses the earlier attempts produced. -/
theorem waitLoop_last_raise :
    ∀ (k0 : Nat) (now : Int) (lastExc : Option PyExc) (i : Nat) (e : PyExc),
      (∀ k, now + (elapsedRun env i k : Int) < deadline →
        attemptSuccess ((env (i + k)).1) = false) →
      now + (elapsedRun env i k0 : Int) < deadline →
      (env (i + k0)).1 = Except.error e →
      (∀ k, k0 < k → now + (elapsedRun env i k : Int) < deadline →
        isErrB ((env (i + k)).1) = false) →
      waitLoop env url timeoutS deadline now lastExc i = .raisedLast e := by
  intro k0
  induction k0 with
  | zero =>
    intro now lastExc i e hnosucc htime henv hlater
    have hlt : now < deadline := by simpa [elapsedRun] using htime
    rw [Nat.add_zero] at henv
    have hquiet : ∀ k,
        (now + (env i).2 + sleepMs) + (elapsedRun env (i + 1) k : Int) < deadline →
        attemptSuccess ((env (i + 1 + k)).1) = false
          ∧ isErrB ((env (i + 1 + k)).1) = false := by
      intro k hk
      have harith : i + (k + 1) = i + 1 + k := by omega
      have hk' : now + (elapsedRun env i (k + 1) : Int) < deadline := by
        simp only [elapsedRun]
        push_cast at hk ⊢
        omega
      constructor
      · have := hnosucc (k + 1) hk'
        rwa [harith] at this
      · have := hlater (k + 1) (by omega) hk'
        rwa [harith] at this
    rw [waitLoop_step_err env url timeoutS deadline now lastExc i henv hlt]
    rw [waitLoop_no_event_afterLoop env url timeoutS deadline
      (deadline - (now + (env i).2 + sleepMs)).toNat
      (now + (env i).2 + sleepMs) (some e) (i + 1) (le_refl _) hquiet]
    simp [afterLoop, pyTruthy]
  | succ k0 ih =>
    intro now lastExc i e hnosucc htime henv hlater
    have hlt : now < deadline := by
      have hnn : (0 : Int) ≤ (elapsedRun env i (k0 + 1) : Int) := Int.ofNat_nonneg _
      omega
    have htime' : (now + (env i).2 + sleepMs) + (elapsedRun env (i + 1) k0 : Int)
        < deadline := by
      simp only [elapsedRun] at htime
      push_cast at htime ⊢
      omega
    have henv' : (env (i + 1 + k0)).1 = Except.error e := by
      have harith : i + (k0 + 1) = i + 1 + k0 := by omega
      rwa [harith] at henv
    have hnosucc' : ∀ k,
        (now + (env i).2 + sleepMs) + (elapsedRun env (i + 1) k : Int) < deadline →
        attemptSuccess ((env (i + 1 + k)).1) = false := by
      intro k hk
      have harith : i + (k + 1) = i + 1 + k := by omega
      have hk' : now + (elapsedRun env i (k + 1) : Int) < deadline := by
        simp only [elapsedRun]
        push_cast at hk ⊢
        omega
      have := hnosucc (k + 1) hk'
      rwa [harith] at this
    have hlater' : ∀ k, k0 < k →
        (now + (env i).2 + sleepMs) + (elapsedRun env (i + 1) k : Int) < deadline →
        isErrB ((env (i + 1 + k)).1) = false := by
      intro k hkk hk
      have harith : i + (k + 1) = i + 1 + k := by omega
      have hk' : now + (elapsedRun env i (k + 1) : Int) < deadline := by
        simp only [elapsedRun]
        push_cast at hk ⊢
        omega
      have := hlater (k + 1) (by omega) hk'
      rwa [harith] at this
    cases henv0 : (env i).1 with
    | error e0 =>
      rw [waitLoop_step_err env url timeoutS deadline now lastExc i henv0 hlt]
      exact ih (now + (env i).2 + sleepMs) (some e0) (i + 1) e hnosucc' htime' henv' hlater'
    | ok resp =>
      have hns : ¬(200 ≤ resp.status_code ∧ resp.status_code < 400) := by
        have h0 := hnosucc 0 (by simpa [elapsedRun] using hlt)
        rw [Nat.add_zero, henv0] at h0
        simpa [attemptSuccess] using h0
      rw [waitLoop_step_ok env url timeoutS deadline now lastExc i henv0 hlt, if_neg hns]
      exact ih (now + (env i).2 + sleepMs) lastExc (i + 1) e hnosucc' htime' henv' hlater'

/-- Completeness of the poll: if attempts `i..i+k-1` are not successes,
attempt `i+k` is a success-status response, and the loop reaches attempt
`i+k` before the deadline, the loop returns that response. -/
theorem waitLoop_complete :
    ∀ (k : Nat) (now : Int) (lastExc : Option PyExc) (i : Nat) (r : Response),
      (∀ j, j < k → attemptSuccess ((env (i + j)).1) = false) →
      (env (i + k)).1 = .ok r →
      200 ≤ r.status_code → r.status_code < 400 →
      now + (elapsedRun env i k : Int) < deadline →
      waitLoop env url timeoutS deadline now lastExc i = .ok r := by
  intro k
  induction k with
  | zero =>
    intro now lastExc i r hfirst hk h200 h400 htime
    have hlt : now < deadline := by
      simp [elapsedRun] at htime
      omega
    simp only [Nat.add_zero] at hk
    rw [waitLoop_step_ok env url timeoutS deadline now lastExc i hk hlt]
    simp only [h200, h400, and_self, if_true]
  | succ k ih =>
    intro now lastExc i r hfirst hk h200 h400 htime
    have hlt : now < deadline := by
      have : (0 : Int) ≤ (elapsedRun env i (k + 1) : Int) := Int.ofNat_nonneg _
      omega
    have hshift : ∀ j, j < k → attemptSuccess ((env (i + 1 + j)).1) = false := by
      intro j hj
      have := hfirst (j + 1) (by omega)
      have harith : i + (j + 1) = i + 1 + j := by omega
      rwa [harith] at this
    have hk' : (env (i + 1 + k)).1 = .ok r := by
      have harith : i + (k + 1) = i + 1 + k := by omega
      rwa [harith] at hk
    have htime' : (now + (env i).2 + sleepMs) + (elapsedRun env (i + 1) k : Int) < deadline := by
      simp only [elapsedRun] at htime
      push_cast at htime ⊢
      omega
    cases henv : (env i).1 with
    | ok resp =>
      have hns : ¬(200 ≤ resp.status_code ∧ resp.status_code < 400) := by
        have := hfirst 0 (by omega)
        simp only [Nat.add_zero] at this
        rw [henv] at this
        simpa [attemptSuccess] using this
      rw [waitLoop_step_ok env url timeoutS deadline now lastExc i henv hlt, if_neg hns]
      exact ih _ lastExc _ _ hshift hk' h200 h400 htime'
    | error e =>
      rw [waitLoop_step_err env url timeoutS deadline now lastExc i henv hlt]
      exact ih _ (some e) _ _ hshift hk' h200 h400 htime'

/-- Enough fuel makes the fuel-indexed loop agree with the loop itself:
each iteration consumes at least the 100 ms sleep, so
`(deadline - now) / 100` rounded up bounds the number of iterations. -/
theorem waitLoopFuel_agrees :
    ∀ (fuel : Nat) (now : Int) (lastExc : Option PyExc) (i : Nat),
      (deadline - now).toNat ≤ sleepMs * fuel →
      waitLoopFuel env url timeoutS deadline fuel now lastExc i
        = some (waitLoop env url timeoutS deadline now lastExc i) := by
  intro fuel
  induction fuel with
  | zero =>
    intro now lastExc i hb
    have hge : ¬ now < deadline := by
      simp only [sleepMs, Nat.mul_zero] at hb
      omega
    rw [waitLoopFuel, if_neg hge, waitLoop_exit env url timeoutS deadline now lastExc i hge]
  | succ fuel ih =>
    intro now lastExc i hb
    by_cases hlt : now < deadline
    · rw [waitLoopFuel, if_pos hlt]
      cases henv : (env i).1 with
      | ok resp =>
        show (if 200 ≤ resp.status_code ∧ resp.status_code < 400 then some (WaitResult.ok resp)
            else waitLoopFuel env url timeoutS deadline fuel
              (now + (env i).2 + sleepMs) lastExc (i + 1))
          = some (waitLoop env url timeoutS deadline now lastExc i)
        rw [waitLoop_step_ok env url timeoutS deadline now lastExc i henv hlt]
        by_cases hin : 200 ≤ resp.status_code ∧ resp.status_code < 400
        · rw [if_pos hin, if_pos hin]
        · rw [if_neg hin, if_neg hin]
          exact ih _ _ _ (by simp only [sleepMs] at hb ⊢; omega)
      | error e =>
        show waitLoopFuel env url timeoutS deadline fuel
            (now + (env i).2 + sleepMs) (some e) (i + 1)
          = some (waitLoop env url timeoutS deadline now lastExc i)
        rw [waitLoop_step_err env url timeoutS deadline now lastExc i henv hlt]
        exact ih _ _ _ (by simp only [sleepMs] at hb ⊢; omega)
    · rw [waitLoopFuel, if_neg hlt, waitLoop_exit env url timeoutS deadline now lastExc i hlt]

end WaitLoopLemmas

/-- Whether a wait outcome is a returned response. -/
def isOkResult : WaitResult → Bool
  | .ok _ => true
  | _ => false

/-- Whether a wait outcome is a raised timeout-type error: the generic
`TimeoutError`, or a re-raised `requests` timeout / `TimeoutExpired`. -/
def raisesTimeoutKind : WaitResult → Bool
  | .raisedTimeout _ => true
  | .raisedLast (.timeoutError _) => true
  | .raisedLast (.timeoutExpired _) => true
  | _ => false

/-- C3: if attempts `0..k-1` are not success-status responses, attempt `k`
returns a response with status in 200..399, and attempt `k` starts before the
deadline, then `_wait_for_server_startup` returns exactly that response; and
the returned response has a success-range status (`resultSound`). -/
theorem wait_returns_first_success (env : PollEnv) (url : String)
    (startMs timeoutS : Int) (k : Nat) (r : Response)
    (hfirst : ∀ j, j < k → attemptSuccess ((env j).1) = false)
    (hk : (env k).1 = Except.ok r)
    (h200 : 200 ≤ r.status_code) (h400 : r.status_code < 400)
    (htime : startMs + (elapsedRun env 0 k : Int) < startMs + 1000 * timeoutS) :
    wait_for_server_startup env url startMs timeoutS = .ok r
      ∧ resultSound (wait_for_server_startup env url startMs timeoutS) = true := by
  have h : wait_for_server_startup env url startMs timeoutS = .ok r := by
    rw [wait_for_server_startup]
    exact waitLoop_complete env url timeoutS (startMs + 1000 * timeoutS) k startMs none 0 r
      (by intro j hj; simpa using hfirst j hj) (by simpa using hk) h200 h400 (by omega)
  refine ⟨h, ?_⟩
  rw [h]
  simp [resultSound, h200, h400]

/-- Concrete run for `wait_returns_first_success`: attempt 0 raises, attempt 1
returns a 204. -/
def pollEnvW : PollEnv := fun i =>
  if i = 0 then (Except.error (PyExc.requestException "conn"), 0)
  else (Except.ok ⟨204⟩, 0)

/-- Witness for C3 at a concrete environment. -/
theorem wait_returns_first_success_witness :
    wait_for_server_startup pollEnvW "http://127.0.0.1:1" 0 10 = .ok ⟨204⟩
      ∧ resultSound (wait_for_server_startup pollEnvW "http://127.0.0.1:1" 0 10) = true :=
  wait_returns_first_success pollEnvW "http://127.0.0.1:1" 0 10 1 ⟨204⟩
    (by intro j hj; interval_cases j; rfl)
    rfl (by decide) (by decide) (by decide)

/-- C5: in an execution in which no poll attempt raises, `last_exc` is never
assigned, so the function either returns a success response or fails reading
the unbound `last_exc`; the generic-`TimeoutError` branch never produces the
outcome; and with `timeout <= 0` no attempt runs and the unbound read fails. -/
theorem wait_no_exception_unbound_local (env : PollEnv) (url : String)
    (startMs timeoutS : Int)
    (hok : ∀ j, isErrB ((env j).1) = false) :
    (isOkResult (wait_for_server_startup env url startMs timeoutS) = true
      ∨ wait_for_server_startup env url startMs timeoutS = .unboundLocal "last_exc")
    ∧ (∀ msg, wait_for_server_startup env url startMs timeoutS ≠ .raisedTimeout msg)
    ∧ (timeoutS ≤ 0 → wait_for_server_startup env url startMs timeoutS = .unboundLocal "last_exc") := by
  refine ⟨?_, ?_, ?_⟩
  · rcases waitLoop_allOk env url timeoutS (startMs + 1000 * timeoutS) hok
      (startMs + 1000 * timeoutS - startMs).toNat startMs 0 (le_refl _) with ⟨r, hr⟩ | h
    · left
      rw [wait_for_server_startup, hr]
      rfl
    · right
      rw [wait_for_server_startup, h]
  · intro msg
    rw [wait_for_server_startup]
    exact waitLoop_ne_raisedTimeout env url timeoutS (startMs + 1000 * timeoutS)
      (startMs + 1000 * timeoutS - startMs).toNat startMs none 0 msg (le_refl _)
  · intro ht
    rw [wait_for_server_startup,
      waitLoop_exit env url timeoutS (startMs + 1000 * timeoutS) startMs none 0 (by omega)]
    rfl

/-- Concrete run for `wait_no_exception_unbound_local`: the server always
answers 500, so no attempt raises and none is a success. -/
def pollEnv500 : PollEnv := fun _ => (Except.ok ⟨500⟩, 9900)

/-- Witness for C5 at a concrete environment. -/
theorem wait_no_exception_unbound_local_witness :
    (isOkResult (wait_for_server_startup pollEnv500 "http://127.0.0.1:1" 0 10) = true
      ∨ wait_for_server_startup pollEnv500 "http://127.0.0.1:1" 0 10 = .unboundLocal "last_exc")
    ∧ (∀ msg, wait_for_server_startup pollEnv500 "http://127.0.0.1:1" 0 10 ≠ .raisedTimeout msg)
    ∧ ((10 : Int) ≤ 0 → wait_for_server_startup pollEnv500 "http://127.0.0.1:1" 0 10 = .unboundLocal "last_exc") :=
  wait_no_exception_unbound_local pollEnv500 "http://127.0.0.1:1" 0 10 (fun _ => rfl)

/-- C10: the readiness wait terminates for every environment: running the
fuel-indexed loop with `(1000 * timeout).toNat` fuel never exhausts the fuel
(each iteration consumes at least the 100 ms sleep against a fixed deadline)
and computes the function's value. -/
theorem wait_terminates (env : PollEnv) (url : String) (startMs timeoutS : Int) :
    waitLoopFuel env url timeoutS (startMs + 1000 * timeoutS)
        (1000 * timeoutS).toNat startMs none 0
      = some (wait_for_server_startup env url startMs timeoutS) := by
  rw [wait_for_server_startup]
  exact waitLoopFuel_agrees env url timeoutS (startMs + 1000 * timeoutS)
    (1000 * timeoutS).toNat startMs none 0 (by simp only [sleepMs]; omega)

/-- Environment in which the port is never bound: every `requests.get` raises
`ConnectionError` after its connect attempt (here 900 ms each). -/
def envConnRefused : PollEnv :=
  fun _ => (Except.error (PyExc.requestException "Connection refused"), 900)

/-- C1 counterexample: when the port never becomes bound, the function does
not fail with a Timeout error: it re-raises the last `ConnectionError`
itself, and the outcome is not of timeout kind. -/
theorem wait_counterexample_no_timeout_error :
    wait_for_server_startup envConnRefused "http://127.0.0.1:8080" 0 10
        = .raisedLast (PyExc.requestException "Connection refused")
      ∧ raisesTimeoutKind
          (wait_for_server_startup envConnRefused "http://127.0.0.1:8080" 0 10) = false := by
  have h : wait_for_server_startup envConnRefused "http://127.0.0.1:8080" 0 10
      = .raisedLast (PyExc.requestException "Connection refused") := by
    simp [wait_for_server_startup, waitLoop, envConnRefused, sleepMs, afterLoop, pyTruthy]
  exact ⟨h, by rw [h]; rfl⟩

/-- C1 amended: for every run in which no attempt reachable before the
deadline (start time `elapsedRun env 0 j < 1000 * timeout`) returns a
success-status response, `_wait_for_server_startup` fails as follows. If
some reachable attempt raised and `e` is the exception of the last reachable
attempt that raised (no later reachable attempt raises; earlier attempts may
freely mix raises and non-success responses), the function re-raises `e`
itself — not a `Timeout`/`ReadinessTimeout` wrapper. If no reachable attempt
raised (all returned non-success responses, or none ran at all), it fails
with `UnboundLocalError` reading the never-assigned `last_exc`. The generic
`TimeoutError` message is never raised. -/
theorem wait_failure_reraises_last_exception (env : PollEnv) (url : String)
    (startMs timeoutS : Int)
    (hnosucc : ∀ j, (elapsedRun env 0 j : Int) < 1000 * timeoutS →
      attemptSuccess ((env j).1) = false) :
    (∀ k e, (elapsedRun env 0 k : Int) < 1000 * timeoutS →
      (env k).1 = Except.error e →
      (∀ j, k < j → (elapsedRun env 0 j : Int) < 1000 * timeoutS →
        isErrB ((env j).1) = false) →
      wait_for_server_startup env url startMs timeoutS = .raisedLast e)
    ∧ ((∀ j, (elapsedRun env 0 j : Int) < 1000 * timeoutS →
        isErrB ((env j).1) = false) →
      wait_for_server_startup env url startMs timeoutS = .unboundLocal "last_exc")
    ∧ (∀ msg, wait_for_server_startup env url startMs timeoutS ≠ .raisedTimeout msg) := by
  refine ⟨?_, ?_, ?_⟩
  · intro k e hk henvk hlater
    rw [wait_for_server_startup]
    refine waitLoop_last_raise env url timeoutS (startMs + 1000 * timeoutS) k startMs none 0 e
      ?_ (by omega) (by simpa using henvk) ?_
    · intro j hj
      have := hnosucc j (by omega)
      simpa using this
    · intro j hjk hj
      have := hlater j hjk (by omega)
      simpa using this
  · intro hnoerr
    have hquiet : ∀ k,
        startMs + (elapsedRun env 0 k : Int) < startMs + 1000 * timeoutS →
        attemptSuccess ((env (0 + k)).1) = false ∧ isErrB ((env (0 + k)).1) = false := by
      intro k hk
      constructor
      · simpa using hnosucc k (by omega)
      · simpa using hnoerr k (by omega)
    rw [wait_for_server_startup]
    rw [waitLoop_no_event_afterLoop env url timeoutS (startMs + 1000 * timeoutS)
      (startMs + 1000 * timeoutS - startMs).toNat startMs none 0 (le_refl _) hquiet]
    rfl
  · intro msg
    rw [wait_for_server_startup]
    exact waitLoop_ne_raisedTimeout env url timeoutS (startMs + 1000 * timeoutS)
      (startMs + 1000 * timeoutS - startMs).toNat startMs none 0 msg (le_refl _)

/-- Outcome of attempt `i` in a mixed failing run: connection errors at
attempts 0 and 2, non-success 503 responses everywhere else. -/
def pollEnvMixedOutcome (i : Nat) : Except PyExc Response :=
  if i = 0 then Except.error (PyExc.requestException "refused at attempt 0")
  else if i = 2 then Except.error (PyExc.requestException "refused at attempt 2")
  else Except.ok ⟨503⟩

/-- Mixed failing environment: every attempt takes 100 ms, so each loop
iteration consumes 200 ms; with a 1 s timeout attempts 0..4 are reachable,
and the last reachable raise is at attempt 2 (attempts 3 and 4 answer 503). -/
def pollEnvMixed : PollEnv := fun i => (pollEnvMixedOutcome i, 100)

/-- Witness for the amended C1: in the mixed run the function re-raises the
exception of attempt 2 — the last caught one, not the first, and not a
Timeout error. -/
theorem wait_failure_reraises_last_exception_witness :
    wait_for_server_startup pollEnvMixed "http://127.0.0.1:7" 0 1
      = WaitResult.raisedLast (PyExc.requestException "refused at attempt 2") :=
  (wait_failure_reraises_last_exception pollEnvMixed "http://127.0.0.1:7" 0 1
    (by
      intro j hj
      show attemptSuccess (pollEnvMixedOutcome j) = false
      unfold pollEnvMixedOutcome
      split
      · rfl
      · split <;> rfl)).1
    2 (PyExc.requestException "refused at attempt 2") (by decide) rfl
    (by
      intro j hj hel
      show isErrB (pollEnvMixedOutcome j) = false
      unfold pollEnvMixedOutcome
      rw [if_neg (by omega), if_neg (by omega)]
      rfl)

/-!
Teardown of the `run_mcp_server` fixture (source lines 63-69):

    try:
        os.killpg(proc.pid, signal.SIGTERM)
        proc.wait(timeout=10)
    except Exception:
        os.killpg(proc.pid, signal.SIGKILL)
    finally:
        proc.wait(timeout=5)

The process was started with `preexec_fn=os.setsid`, so `proc.pid` is also the
id of its process group and `os.killpg(proc.pid, sig)` signals the whole group.
-/

/-- Signals sent during teardown. -/
inductive Sig where
  | SIGTERM
  | SIGKILL
deriving DecidableEq, Repr

/-- One observable teardown call: `os.killpg(proc.pid, sig)` on the process
group, or `proc.wait(timeout=timeoutS)`. -/
inductive TeardownStep where
  | killpgGroup (sig : Sig)
  | waitProc (timeoutS : Nat)
deriving DecidableEq, Repr

/-- Outcomes of the four external calls the teardown can make, if they are
made: each call either completes or raises. -/
structure TeardownEnv where
  killpgTerm : Except PyExc Unit
  waitGrace : Except PyExc Unit
  killpgKill : Except PyExc Unit
  waitFinal : Except PyExc Unit

/-- The teardown block: result (`ok` = completes, `error e` = exception `e`
propagates past the teardown) together with the sequence of calls made.
Python semantics: an exception in `try` runs the `except` block; an exception
raised in the `except` block propagates; the `finally` block always runs, and
an exception it raises replaces any pending one. -/
def shutdown (env : TeardownEnv) : Except PyExc Unit × List TeardownStep :=
  let body : Except PyExc Unit × List TeardownStep :=
    match env.killpgTerm with
    | .ok _ =>
      match env.waitGrace with
      | .ok _ => (Except.ok (), [.killpgGroup .SIGTERM, .waitProc 10])
      | .error _ =>
        match env.killpgKill with
        | .ok _ => (Except.ok (), [.killpgGroup .SIGTERM, .waitProc 10, .killpgGroup .SIGKILL])
        | .error e2 =>
          (Except.error e2, [.killpgGroup .SIGTERM, .waitProc 10, .killpgGroup .SIGKILL])
    | .error _ =>
      match env.killpgKill with
      | .ok _ => (Except.ok (), [.killpgGroup .SIGTERM, .killpgGroup .SIGKILL])
      | .error e2 => (Except.error e2, [.killpgGroup .SIGTERM, .killpgGroup .SIGKILL])
  match env.waitFinal with
  | .ok _ => (body.1, body.2 ++ [.waitProc 5])
  | .error ef => (Except.error ef, body.2 ++ [.waitProc 5])

/-- C2 counterexample: graceful wait times out (`TimeoutExpired`), SIGKILL is
sent, and the final 5-second reap also times out — the claim says such a
failure to confirm exit is swallowed, but the `TimeoutExpired` of the final
`proc.wait(timeout=5)` propagates past the teardown. -/
theorem shutdown_counterexample_propagates :
    (shutdown
        { killpgTerm := Except.ok ()
          waitGrace := Except.error (PyExc.timeoutExpired "proc.wait timeout 10")
          killpgKill := Except.ok ()
          waitFinal := Except.error (PyExc.timeoutExpired "proc.wait timeout 5") }).1
      = Except.error (PyExc.timeoutExpired "proc.wait timeout 5") := rfl

/-- C2 amended: errors of the graceful phase (the SIGTERM send and the
10-second wait) are caught and only trigger escalation; an exception can
propagate past the teardown only from the SIGKILL send or from the final
5-second wait, and if those two calls complete the teardown never raises. -/
theorem shutdown_error_sources (env : TeardownEnv) :
    (∀ e, (shutdown env).1 = Except.error e
      → env.killpgKill = Except.error e ∨ env.waitFinal = Except.error e)
    ∧ (env.killpgKill = Except.ok () → env.waitFinal = Except.ok ()
      → (shutdown env).1 = Except.ok ()) := by
  obtain ⟨kt, wg, kk, wf⟩ := env
  constructor
  · intro e
    cases kt <;> cases wg <;> cases kk <;> cases wf <;>
      simp_all [shutdown]
  · intro hkk hwf
    cases kt <;> cases wg <;> simp_all [shutdown]

/-- Witness for the amended C2: with both fallible calls of the forced phase
completing, the teardown completes silently even though the graceful phase
raised. -/
theorem shutdown_error_sources_witness :
    (∀ e, (shutdown
        { killpgTerm := Except.error (PyExc.processLookupError "no such process")
          waitGrace := Except.ok ()
          killpgKill := Except.ok ()
          waitFinal := Except.ok () }).1 = Except.error e
      → ({ killpgTerm := Except.error (PyExc.processLookupError "no such process")
           waitGrace := Except.ok ()
           killpgKill := Except.ok ()
           waitFinal := Except.ok () } : TeardownEnv).killpgKill = Except.error e
        ∨ ({ killpgTerm := Except.error (PyExc.processLookupError "no such process")
             waitGrace := Except.ok ()
             killpgKill := Except.ok ()
             waitFinal := Except.ok () } : TeardownEnv).waitFinal = Except.error e)
    ∧ (({ killpgTerm := Except.error (PyExc.processLookupError "no such process")
          waitGrace := Except.ok ()
          killpgKill := Except.ok ()
          waitFinal := Except.ok () } : TeardownEnv).killpgKill = Except.ok ()
      → ({ killpgTerm := Except.error (PyExc.processLookupError "no such process")
           waitGrace := Except.ok ()
           killpgKill := Except.ok ()
           waitFinal := Except.ok () } : TeardownEnv).waitFinal = Except.ok ()
      → (shutdown
          { killpgTerm := Except.error (PyExc.processLookupError "no such process")
            waitGrace := Except.ok ()
            killpgKill := Except.ok ()
            waitFinal := Except.ok () }).1 = Except.ok ()) :=
  shutdown_error_sources
    { killpgTerm := Except.error (PyExc.processLookupError "no such process")
      waitGrace := Except.ok ()
      killpgKill := Except.ok ()
      waitFinal := Except.ok () }

/-!
Startup of the `run_mcp_server` fixture (source lines 38-59): build
`url = f"http://{host}:{port}"` and
`cmd = shlex.split(f"uv run custom-mcp-server --port {port}")`, spawn the
process with `preexec_fn=os.setsid` (a new session, hence a new process
group), then wait for readiness, terminating the process and re-raising on
readiness failure.
-/

/-- Decimal digit character, used to model Python's `str`/f-string rendering
of a nonnegative `int`. -/
def digitChar (d : Nat) : Char :=
  match d with
  | 0 => '0' | 1 => '1' | 2 => '2' | 3 => '3' | 4 => '4'
  | 5 => '5' | 6 => '6' | 7 => '7' | 8 => '8' | _ => '9'

theorem digitChar_ne_space (d : Nat) : digitChar d ≠ ' ' := by
  unfold digitChar
  split <;> decide

/-- Decimal digits of `n`, most significant first. -/
def decDigits (n : Nat) : List Char :=
  if n < 10 then [digitChar n]
  else decDigits (n / 10) ++ [digitChar (n % 10)]
termination_by n
decreasing_by exact Nat.div_lt_self (by omega) (by omega)

theorem decDigits_ne_nil (n : Nat) : decDigits n ≠ [] := by
  rw [decDigits]
  split <;> simp

theorem decDigits_no_space (n : Nat) : ∀ c ∈ decDigits n, c ≠ ' ' := by
  induction n using Nat.strong_induction_on with
  | _ n ih =>
    rw [decDigits]
    split
    · intro c hc
      simp at hc
      subst hc
      exact digitChar_ne_space n
    · intro c hc
      rcases List.mem_append.mp hc with h | h
      · exact ih (n / 10) (Nat.div_lt_self (by omega) (by omega)) c h
      · simp at h
        subst h
        exact digitChar_ne_space (n % 10)

/-- Python's `str(n)` / f-string rendering of a nonnegative int. -/
def pyStr (n : Nat) : String := String.mk (decDigits n)

/-- Whitespace tokenizer: `shlex.split` restricted to inputs without quotes
or escapes, which is exactly the shape of the command template in the
source (`f"uv run custom-mcp-server --port {port}"`). -/
def splitTokens : List Char → List Char → List (List Char)
  | [], acc => if acc.isEmpty then [] else [acc.reverse]
  | c :: cs, acc =>
    if c = ' ' then
      if acc.isEmpty then splitTokens cs [] else acc.reverse :: splitTokens cs []
    else splitTokens cs (c :: acc)

/-- Models `shlex.split(s)` for quote-free `s`. -/
def shlexSplitNoQuotes (s : String) : List String :=
  (splitTokens s.data []).map String.mk

theorem splitTokens_single (l : List Char) (hne : l ≠ []) (hns : ∀ c ∈ l, c ≠ ' ') :
    ∀ acc, splitTokens l acc = [acc.reverse ++ l] := by
  induction l with
  | nil => exact absurd rfl hne
  | cons c cs ih =>
    intro acc
    have hc : c ≠ ' ' := hns c (by simp)
    rw [splitTokens, if_neg hc]
    rcases eq_or_ne cs [] with hcs | hcs
    · subst hcs
      rw [splitTokens]
      simp
    · rw [ih hcs (fun x hx => hns x (by simp [hx])) (c :: acc)]
      simp

theorem splitTokens_word (w rest : List Char) (hne : w ≠ []) (hns : ∀ c ∈ w, c ≠ ' ') :
    ∀ acc, splitTokens (w ++ ' ' :: rest) acc
      = (acc.reverse ++ w) :: splitTokens rest [] := by
  induction w with
  | nil => exact absurd rfl hne
  | cons c cs ih =>
    intro acc
    have hc : c ≠ ' ' := hns c (by simp)
    rw [List.cons_append, splitTokens, if_neg hc]
    rcases eq_or_ne cs [] with hcs | hcs
    · subst hcs
      rw [List.nil_append, splitTokens, if_pos rfl]
      simp
    · rw [ih hcs (fun x hx => hns x (by simp [hx])) (c :: acc)]
      simp

theorem splitTokens_cmd (l : List Char) (hne : l ≠ []) (hns : ∀ c ∈ l, c ≠ ' ') :
    splitTokens ("uv run custom-mcp-server --port ".data ++ l) []
      = ["uv".data, "run".data, "custom-mcp-server".data, "--port".data, l] := by
  have hre : "uv run custom-mcp-server --port ".data ++ l
      = "uv".data ++ ' ' :: ("run".data ++ ' '
        :: ("custom-mcp-server".data ++ ' ' :: ("--port".data ++ ' ' :: l))) := rfl
  rw [hre]
  rw [splitTokens_word "uv".data _ (by decide) (by decide) []]
  rw [splitTokens_word "run".data _ (by decide) (by decide) []]
  rw [splitTokens_word "custom-mcp-server".data _ (by decide) (by decide) []]
  rw [splitTokens_word "--port".data _ (by decide) (by decide) []]
  rw [splitTokens_single l hne hns []]
  rfl

/-- The base url of the fixture: `f"http://{host}:{port}"` with
`host = "127.0.0.1"`. -/
def serverUrl (port : Nat) : String := "http://127.0.0.1:" ++ pyStr port

/-- The spawn command of the fixture:
`shlex.split(f"uv run custom-mcp-server --port {port}")`. -/
def serverCmd (port : Nat) : List String :=
  shlexSplitNoQuotes ("uv run custom-mcp-server --port " ++ pyStr port)

theorem serverCmd_tokens (port : Nat) :
    serverCmd port = ["uv", "run", "custom-mcp-server", "--port", pyStr port] := by
  have h := splitTokens_cmd (decDigits port) (decDigits_ne_nil port) (decDigits_no_space port)
  simp only [serverCmd, shlexSplitNoQuotes, pyStr]
  rw [show ("uv run custom-mcp-server --port " ++ String.mk (decDigits port)).data
      = "uv run custom-mcp-server --port ".data ++ decDigits port from rfl]
  rw [h]
  rfl

/-- Observable actions of the fixture startup: spawning the subprocess
(with whether it is placed in a new process group), the readiness wait,
`proc.terminate()`, and yielding the url to the tests. -/
inductive HarnessAction where
  | popen (cmd : List String) (newProcessGroup : Bool)
  | waitStartup (url : String)
  | terminateProc
  | yieldUrl (url : String)
deriving DecidableEq, Repr

/-- The exception that a `WaitResult` raises into the caller, if any:
`_wait_for_server_startup` either returns or raises (the re-raised last
exception, the generic `TimeoutError`, or `UnboundLocalError` — all
`Exception` subclasses, all caught by `except Exception as e`). -/
def waitResultToExc : WaitResult → Except PyExc Response
  | .ok r => Except.ok r
  | .raisedLast e => Except.error e
  | .raisedTimeout m => Except.error (.timeoutError m)
  | .unboundLocal n => Except.error (.unboundLocalError n)

/-- Startup phase of the `run_mcp_server` fixture: spawn (new process group
via `preexec_fn=os.setsid`), then `_wait_for_server_startup(url)` with the
default 10 s timeout; on readiness failure, `proc.terminate()` then
`raise e`; on success the fixture yields the url. -/
def run_mcp_server_startup (port : Nat) (env : PollEnv) (startMs : Int) :
    Except PyExc String × List HarnessAction :=
  let url := serverUrl port
  let cmd := serverCmd port
  match waitResultToExc (wait_for_server_startup env url startMs 10) with
  | .ok _ => (Except.ok url, [.popen cmd true, .waitStartup url, .yieldUrl url])
  | .error e => (Except.error e, [.popen cmd true, .waitStartup url, .terminateProc])

/-- C7: the fixture spawns `uv run custom-mcp-server --port <N>` with the
allocated port rendered as the argument after `--port`, in a new process
group, and the spawn itself is a distinct first action that does not wait:
the readiness wait is the separate second action. -/
theorem startup_spawns_with_port_arg (port : Nat) (env : PollEnv) (startMs : Int) :
    serverCmd port = ["uv", "run", "custom-mcp-server", "--port", pyStr port]
    ∧ (run_mcp_server_startup port env startMs).2[0]?
        = some (.popen (serverCmd port) true)
    ∧ (run_mcp_server_startup port env startMs).2[1]?
        = some (.waitStartup (serverUrl port)) := by
  refine ⟨serverCmd_tokens port, ?_, ?_⟩ <;>
    · rw [run_mcp_server_startup]
      cases waitResultToExc (wait_for_server_startup env (serverUrl port) startMs 10) <;> rfl

/-- Environment in which the spawned server never answers: used to drive the
startup failure path. -/
def envDown : PollEnv := fun _ => (Except.error (PyExc.requestException "ECONNREFUSED"), 9900)

/-- C4: when the readiness wait raises, the fixture calls `proc.terminate()`
on the spawned process and then propagates that same error to the caller:
the failure path does not leak the spawned process. -/
theorem startup_failure_terminates_process (port : Nat) (env : PollEnv)
    (startMs : Int) (e : PyExc)
    (h : waitResultToExc (wait_for_server_startup env (serverUrl port) startMs 10)
      = Except.error e) :
    (run_mcp_server_startup port env startMs).1 = Except.error e
    ∧ (run_mcp_server_startup port env startMs).2
        = [.popen (serverCmd port) true, .waitStartup (serverUrl port), .terminateProc] := by
  rw [run_mcp_server_startup]
  rw [h]
  exact ⟨rfl, rfl⟩

/-- Witness for C4: a server that never answers on port 8080. -/
theorem startup_failure_terminates_process_witness :
    (run_mcp_server_startup 8080 envDown 0).1
        = Except.error (PyExc.requestException "ECONNREFUSED")
    ∧ (run_mcp_server_startup 8080 envDown 0).2
        = [.popen (serverCmd 8080) true, .waitStartup (serverUrl 8080), .terminateProc] :=
  startup_failure_terminates_process 8080 envDown 0 (PyExc.requestException "ECONNREFUSED")
    (by simp [wait_for_server_startup, waitLoop, envDown, sleepMs, afterLoop, pyTruthy,
      waitResultToExc])

/-- C6: the teardown executes exactly one of three call sequences — SIGTERM
to the group then the 10 s wait then the final 5 s wait when the graceful
phase succeeds; with the SIGKILL escalation inserted before the final wait
when the graceful wait fails; and with the 10 s wait skipped when the SIGTERM
send itself fails. In all cases the final bounded 5 s wait runs last. -/
theorem shutdown_step_sequence (env : TeardownEnv) :
    ((shutdown env).2 = [.killpgGroup .SIGTERM, .waitProc 10, .waitProc 5]
      ∧ env.killpgTerm.isOk = true ∧ env.waitGrace.isOk = true)
    ∨ ((shutdown env).2
        = [.killpgGroup .SIGTERM, .waitProc 10, .killpgGroup .SIGKILL, .waitProc 5]
      ∧ env.killpgTerm.isOk = true ∧ env.waitGrace.isOk = false)
    ∨ ((shutdown env).2 = [.killpgGroup .SIGTERM, .killpgGroup .SIGKILL, .waitProc 5]
      ∧ env.killpgTerm.isOk = false) := by
  obtain ⟨kt, wg, kk, wf⟩ := env
  cases kt <;> cases wg <;> cases kk <;> cases wf <;>
    simp [shutdown, Except.isOk, Except.toBool]

end McpHarness

namespace QueryRemote

open McpHarness (PyExc)

/-!
Shallow embedding of `main()` of `scripts/dev/query_remote.py`. The whole
body runs inside one `try: ... except Exception as e: ...; sys.exit(1)`; if
no exception escapes the body the script returns from `main` and the process
exits with code 0. External calls are modelled by an environment; numeric
JSON payload values are modelled as exact rationals.
-/

/-- Parsed payload of a `trigger_job_run` call
(`json.loads(result.content[0].text)`): only the `success` field steers the
script's control flow. -/
structure TriggerPayload where
  success : Bool
deriving DecidableEq, Repr

/-- Outcomes of the external calls `main()` makes, in source order:
creating the `WorkspaceClient`, connecting the `DatabricksMCPClient`,
`list_tools()` (tool names), `call_tool(name)` for parameter-free tools,
`call_tool("add_numbers", ...)` (the parsed `result` value, or a raised
exception, covering call and JSON-parse failures), and
`call_tool("trigger_job_run", ...)` (the parsed payload). -/
structure QueryEnv where
  workspace : Except PyExc Unit
  connect : Except PyExc Unit
  tools : Except PyExc (List String)
  callNoArg : String → Except PyExc Unit
  addNumbers : Rat → Rat → Except PyExc Rat
  triggerJob : Int → Except PyExc TriggerPayload

/-- Step 4 of the script: `for tool in tools:` calling every tool, skipping
`add_numbers` and `trigger_job_run`; the first raised exception aborts. -/
def callAllNoArg (call : String → Except PyExc Unit) : List String → Except PyExc Unit
  | [] => Except.ok ()
  | t :: ts =>
    if t = "add_numbers" ∨ t = "trigger_job_run" then callAllNoArg call ts
    else
      match call t with
      | .ok _ => callAllNoArg call ts
      | .error e => Except.error e

/-- One `add_numbers` test case of step 5: call the tool, compare the parsed
`result` with the expected value, and raise
`AssertionError(f"Expected {expected} but got {actual}")` on mismatch. -/
def addCheck (env : QueryEnv) (a b expected : Rat) : Except PyExc Unit :=
  match env.addNumbers a b with
  | .error e => Except.error e
  | .ok actual =>
    if actual = expected then Except.ok ()
    else Except.error (.assertionError
      ("Expected " ++ toString expected ++ " but got " ++ toString actual))

/-- Python truthiness of `args.test_job_id` (`if args.test_job_id:`): the
trigger step runs only for a provided, nonzero job id. -/
def jobIdTruthy : Option Int → Bool
  | none => false
  | some j => decide (j ≠ 0)

/-- Steps 1-5 of the `try:` block of `main()`: each step runs only if all
previous steps completed; the value is `ok` iff no exception was raised so
far. The three `add_numbers` cases and their expected values are the
literals of the source (`(5, 3, 8.0)`, `(10.5, 2.3, 12.8)`, `(-5, 10, 5.0)`). -/
def query_steps_before_trigger (env : QueryEnv) : Except PyExc Unit :=
  match env.workspace with
  | .error e => Except.error e
  | .ok _ =>
  match env.connect with
  | .error e => Except.error e
  | .ok _ =>
  match env.tools with
  | .error e => Except.error e
  | .ok tools =>
  match callAllNoArg env.callNoArg tools with
  | .error e => Except.error e
  | .ok _ =>
  match addCheck env 5 3 8 with
  | .error e => Except.error e
  | .ok _ =>
  match addCheck env 10.5 2.3 12.8 with
  | .error e => Except.error e
  | .ok _ =>
  match addCheck env (-5) 10 5 with
  | .error e => Except.error e
  | .ok _ => Except.ok ()

/-- The body of the `try:` block of `main()`: steps 1-5, then step 6, which
triggers the job only for a truthy `--test-job-id`. The `trigger_job_run`
payload is only printed: its `success` field does not raise. -/
def query_main_body (jobId : Option Int) (env : QueryEnv) : Except PyExc Unit :=
  match query_steps_before_trigger env with
  | .error e => Except.error e
  | .ok _ =>
  if jobIdTruthy jobId then
    match env.triggerJob (jobId.getD 0) with
    | .error e => Except.error e
    | .ok _ => Except.ok ()
  else Except.ok ()

/-- Exit code of the script's process: `main()` wraps its body in
`except Exception as e: ...; sys.exit(1)`, and a normal return exits 0. -/
def query_main_exit (jobId : Option Int) (env : QueryEnv) : Nat :=
  match query_main_body jobId env with
  | .ok _ => 0
  | .error _ => 1

/-- C8: the process exit code is 0 exactly when the body completes without an
uncaught exception and 1 whenever any step raises; in particular a connection
failure and an `add_numbers` expected-value assertion failure exit 1. -/
theorem query_exit_codes (jobId : Option Int) (env : QueryEnv) :
    (query_main_body jobId env = Except.ok () → query_main_exit jobId env = 0)
    ∧ (∀ e, query_main_body jobId env = Except.error e → query_main_exit jobId env = 1)
    ∧ (∀ e, env.workspace = Except.ok () → env.connect = Except.error e
        → query_main_exit jobId env = 1)
    ∧ (∀ v, env.workspace = Except.ok () → env.connect = Except.ok ()
        → env.tools = Except.ok [] → env.addNumbers 5 3 = Except.ok v → v ≠ 8
        → query_main_exit jobId env = 1) := by
  refine ⟨?_, ?_, ?_, ?_⟩
  · intro h
    rw [query_main_exit, h]
  · intro e h
    rw [query_main_exit, h]
  · intro e hw hc
    simp [query_main_exit, query_main_body, query_steps_before_trigger, hw, hc]
  · intro v hw hc ht ha hv
    simp only [query_main_exit, query_main_body, query_steps_before_trigger, hw, hc, ht,
      callAllNoArg, addCheck, ha]
    rw [if_neg hv]

/-- Environment for the C8 witness: everything succeeds but the first
`add_numbers` case returns 7 instead of 8. -/
def envBadAdd : QueryEnv :=
  { workspace := Except.ok ()
    connect := Except.ok ()
    tools := Except.ok []
    callNoArg := fun _ => Except.ok ()
    addNumbers := fun _ _ => Except.ok 7
    triggerJob := fun _ => Except.ok ⟨true⟩ }

/-- Witness for C8: the assertion failure of the mismatched `add_numbers`
expectation makes the script exit 1. -/
theorem query_exit_codes_witness :
    (query_main_body none envBadAdd = Except.ok () → query_main_exit none envBadAdd = 0)
    ∧ (∀ e, query_main_body none envBadAdd = Except.error e
        → query_main_exit none envBadAdd = 1)
    ∧ (∀ e, envBadAdd.workspace = Except.ok () → envBadAdd.connect = Except.error e
        → query_main_exit none envBadAdd = 1)
    ∧ (∀ v, envBadAdd.workspace = Except.ok () → envBadAdd.connect = Except.ok ()
        → envBadAdd.tools = Except.ok [] → envBadAdd.addNumbers 5 3 = Except.ok v → v ≠ 8
        → query_main_exit none envBadAdd = 1) :=
  query_exit_codes none envBadAdd

/-- C9: if every step up to and including `add_numbers` succeeds (expressed
as: the run without a job id exits cleanly) and `trigger_job_run` returns a
payload with `success = false`, the script still exits 0 — a failed job
trigger is only printed, so exit code 0 does not imply the job run was
triggered. Moreover the exit code does not depend on the `success` value. -/
theorem trigger_failure_still_exits_zero (env : QueryEnv) (j : Int) (p : TriggerPayload)
    (hj : j ≠ 0)
    (hbody : query_main_body none env = Except.ok ())
    (htrig : env.triggerJob j = Except.ok p)
    (hfail : p.success = false) :
    query_main_exit (some j) env = 0
      ∧ (query_main_exit (some j) env
          = query_main_exit (some j)
              { env with triggerJob := fun _ => Except.ok ⟨true⟩ }) := by
  have hpre : query_steps_before_trigger env = Except.ok () := by
    rw [query_main_body] at hbody
    cases h : query_steps_before_trigger env with
    | error e => rw [h] at hbody; cases hbody
    | ok u => rfl
  have hjt : jobIdTruthy (some j) = true := by
    simp [jobIdTruthy, hj]
  have hpre' : query_steps_before_trigger { env with triggerJob := fun _ => Except.ok ⟨true⟩ }
      = Except.ok () := by
    rw [query_steps_before_trigger] at hpre ⊢
    exact hpre
  constructor
  · rw [query_main_exit, query_main_body, hpre, hjt]
    simp only [if_true, Option.getD]
    rw [htrig]
  · rw [query_main_exit, query_main_body, hpre, hjt]
    rw [query_main_exit, query_main_body, hpre', hjt]
    simp only [if_true, Option.getD]
    rw [htrig]

/-- Environment for the C9 witness: every call succeeds, `add_numbers`
returns the exact sum, and the job trigger reports `success = false`. -/
def envTrigFail : QueryEnv :=
  { workspace := Except.ok ()
    connect := Except.ok ()
    tools := Except.ok ["health", "add_numbers", "trigger_job_run"]
    callNoArg := fun _ => Except.ok ()
    addNumbers := fun a b => Except.ok (a + b)
    triggerJob := fun _ => Except.ok ⟨false⟩ }

/-- Witness for C9: a failed `trigger_job_run` payload still exits 0. -/
theorem trigger_failure_still_exits_zero_witness :
    query_main_exit (some 999999999) envTrigFail = 0
      ∧ (query_main_exit (some 999999999) envTrigFail
          = query_main_exit (some 999999999)
              { envTrigFail with triggerJob := fun _ => Except.ok ⟨true⟩ }) :=
  trigger_failure_still_exits_zero envTrigFail 999999999 ⟨false⟩
    (by decide)
    (by norm_num [query_main_body, query_steps_before_trigger, envTrigFail, callAllNoArg, addCheck])
    rfl rfl

end QueryRemote
